import Mathlib

/-!
# Verification of the telegram_forwarder core (shallow embedding)

This file embeds the core logic of the `telegram_forwarder` repository
(`handlers.py`, `bot.py`, `config.py`) as executable Lean definitions and
proves or refutes the specified properties about them.

Modelling conventions:
* Wall-clock instants and durations (Python `datetime` / float seconds) are
  rationals (`ℚ`).  `asyncio.sleep d` is modelled as advancing the clock by
  exactly `d`; the instant recorded by the second `datetime.now()` call in
  `RateLimiter.wait_if_needed` is therefore `now` plus the total time slept.
* Logging calls are pure observations and are omitted.
* The external Telegram client is an oracle parameter: entity lookup is a
  function `String → Option ℕ` (`none` = the lookup raises), and each dispatch
  attempt observes one element of a `List Outcome` trace.
-/

/-- Rate-limit configuration, from `config.py` `RateLimitConfig`
(fields `message_delay`, `flood_wait_multiplier`, `max_messages_per_minute`). -/
structure RateLimitConfig where
  message_delay : ℚ
  flood_wait_multiplier : ℚ
  max_messages_per_minute : ℕ
deriving DecidableEq

/-- Result of one rate-limiter operation: the sleeps performed, in order,
and the new contents of `message_times`. -/
structure RLResult where
  waits : List ℚ
  times : List ℚ
deriving DecidableEq

/-- The pruning step of `RateLimiter.wait_if_needed` (`handlers.py` line 80):
`[t for t in self.message_times if t > cutoff]` with `cutoff = now - 60`
(one minute).  An entry aged exactly 60 seconds is dropped. -/
def prune (times : List ℚ) (now : ℚ) : List ℚ :=
  times.filter (fun t => decide (now - 60 < t))

/-- Model of `RateLimiter.wait_if_needed` (`handlers.py` lines 73–94), as a
function of the current window `times` and the instant `now` returned by the
first `datetime.now()` call.  After pruning, if the window has reached
`max_messages_per_minute` entries the code reads `message_times[0]` and sleeps
`(message_times[0] - cutoff).total_seconds()` when positive — on an empty
window that read is a Python `IndexError`, modelled as `none` (reachable only
when `max_messages_per_minute = 0`).  It then sleeps `message_delay`
unconditionally and appends the second `datetime.now()`, i.e. `now` plus the
total time slept. -/
def wait_if_needed (cfg : RateLimitConfig) (times : List ℚ) (now : ℚ) :
    Option RLResult :=
  if cfg.max_messages_per_minute ≤ (prune times now).length then
    match prune times now with
    | [] => none
    | t0 :: rest =>
      if 0 < t0 - (now - 60) then
        some ⟨[t0 - (now - 60), cfg.message_delay],
          (t0 :: rest) ++ [now + (t0 - (now - 60)) + cfg.message_delay]⟩
      else
        some ⟨[cfg.message_delay], (t0 :: rest) ++ [now + cfg.message_delay]⟩
  else
    some ⟨[cfg.message_delay], prune times now ++ [now + cfg.message_delay]⟩

/-- Model of `RateLimiter.handle_flood_wait` (`handlers.py` lines 96–100):
sleeps `error.seconds * flood_wait_multiplier` and does not touch
`message_times`. -/
def handle_flood_wait (cfg : RateLimitConfig) (times : List ℚ) (seconds : ℚ) :
    RLResult :=
  ⟨[seconds * cfg.flood_wait_multiplier], times⟩

/-- The acquire-slot algorithm exactly as the spec describes it (spec §4.4 /
claim C6): drop entries that have left the trailing 60-second window (an entry
aged exactly 60 seconds counts as expired, matching `t > cutoff`); if the
window has reached `max_messages_per_minute` entries, suspend until the oldest
surviving entry `t0` exits the window, i.e. for `t0 + 60 - now`; then
unconditionally suspend for `message_delay`; finally append the current
time. -/
def acquire_slot_spec (cfg : RateLimitConfig) (times : List ℚ) (now : ℚ) :
    Option RLResult :=
  if cfg.max_messages_per_minute ≤
      (times.filter (fun t => decide (now - t < 60))).length then
    match times.filter (fun t => decide (now - t < 60)) with
    | [] => none
    | t0 :: rest =>
      some ⟨[t0 + 60 - now, cfg.message_delay],
        (t0 :: rest) ++ [now + (t0 + 60 - now + cfg.message_delay)]⟩
  else
    some ⟨[cfg.message_delay],
      times.filter (fun t => decide (now - t < 60)) ++
        [now + cfg.message_delay]⟩

/-- Every entry surviving the prune is strictly within the trailing
60-second window. -/
theorem prune_mem_age {times : List ℚ} {now t : ℚ} (ht : t ∈ prune times now) :
    now - 60 < t := by
  unfold prune at ht
  exact of_decide_eq_true (List.mem_filter.mp ht).2

/-- Claim C7: `handle_flood_wait` sleeps exactly `seconds * flood_wait_multiplier`
and leaves the rate window unchanged; in particular a signalled wait of 10
with multiplier 3/2 sleeps 15 (≥ 15) and keeps the window `[5]` intact. -/
theorem penalize_exact_and_frame (cfg : RateLimitConfig) (times : List ℚ)
    (w : ℚ) :
    handle_flood_wait cfg times w = ⟨[w * cfg.flood_wait_multiplier], times⟩ ∧
    handle_flood_wait ⟨1, 3 / 2, 20⟩ [5] 10 = ⟨[15], [5]⟩ ∧ (15 : ℚ) ≤ 15 := by
  refine ⟨rfl, ?_, le_refl _⟩
  norm_num [handle_flood_wait]

/-- Claim C5 counterexample: with `message_delay = 2`, `max_messages_per_minute = 2`,
window `[41]` and `now = 100`, the call sleeps 2 and appends at instant 102,
so right after the append mutation the surviving entry `41` is 61 seconds old
— older than the 60 seconds the claimed invariant allows. -/
theorem rate_window_stale_after_append :
    wait_if_needed ⟨2, 1, 2⟩ [41] 100 = some ⟨[2], [41, 102]⟩ ∧
    (41 : ℚ) ∈ [(41 : ℚ), 102] ∧ ¬ ((100 + ([2] : List ℚ).sum) - 41 ≤ 60) := by
  refine ⟨?_, by norm_num, by norm_num⟩
  norm_num [wait_if_needed, prune, List.filter]

/-- Claim C5 amended: after the prune mutation every surviving entry is at most 60
seconds old relative to `now`, the instant of that mutation; after the append
mutation (at instant `now + total slept`) every entry is at most
`60 + total slept` seconds old — the original 60-second bound can be exceeded
by exactly the time slept between the prune and the append. -/
theorem rate_window_age_bounds (cfg : RateLimitConfig) (times : List ℚ)
    (now : ℚ) (r : RLResult) (hr : wait_if_needed cfg times now = some r)
    (hd : 0 ≤ cfg.message_delay) :
    (∀ t ∈ prune times now, now - t ≤ 60) ∧
    0 ≤ r.waits.sum ∧
    (∀ t ∈ r.times, (now + r.waits.sum) - t ≤ 60 + r.waits.sum) := by
  have hkept : ∀ t ∈ prune times now, now - t ≤ 60 := by
    intro t ht
    have := prune_mem_age ht
    linarith
  refine ⟨hkept, ?_⟩
  unfold wait_if_needed at hr
  split at hr
  · split at hr
    · exact absurd hr (by simp)
    · next t0 rest hsc =>
      have hmem : ∀ t ∈ t0 :: rest, now - t ≤ 60 := by
        rw [← hsc]
        exact hkept
      split at hr
      · next hw =>
        obtain rfl : (⟨[t0 - (now - 60), cfg.message_delay],
            (t0 :: rest) ++ [now + (t0 - (now - 60)) + cfg.message_delay]⟩ :
            RLResult) = r := Option.some_injective _ hr
        constructor
        · simp only [List.sum_cons, List.sum_nil]
          linarith
        · intro t ht
          simp only [List.mem_append, List.mem_singleton] at ht
          simp only [List.sum_cons, List.sum_nil]
          rcases ht with ht | rfl
          · have := hmem t ht
            linarith
          · linarith
      · next hw =>
        obtain rfl : (⟨[cfg.message_delay],
            (t0 :: rest) ++ [now + cfg.message_delay]⟩ : RLResult) = r :=
          Option.some_injective _ hr
        constructor
        · simpa using hd
        · intro t ht
          simp only [List.mem_append, List.mem_singleton] at ht
          simp only [List.sum_cons, List.sum_nil]
          rcases ht with ht | rfl
          · have := hmem t ht
            linarith
          · linarith
  · obtain rfl : (⟨[cfg.message_delay],
        prune times now ++ [now + cfg.message_delay]⟩ : RLResult) = r :=
      Option.some_injective _ hr
    constructor
    · simpa using hd
    · intro t ht
      simp only [List.mem_append, List.mem_singleton] at ht
      simp only [List.sum_cons, List.sum_nil]
      rcases ht with ht | rfl
      · have := hkept t ht
        linarith
      · linarith

/-- Witness for `rate_window_age_bounds` at `cfg = ⟨1, 1, 5⟩`, empty window,
`now = 0`. -/
theorem rate_window_age_bounds_witness :
    wait_if_needed ⟨1, 1, 5⟩ [] 0 = some ⟨[1], [1]⟩ ∧
    ((∀ t ∈ prune [] 0, (0 : ℚ) - t ≤ 60) ∧
      0 ≤ (RLResult.mk [1] [1]).waits.sum ∧
      (∀ t ∈ (RLResult.mk [1] [1]).times,
        ((0 : ℚ) + (RLResult.mk [1] [1]).waits.sum) - t ≤
          60 + (RLResult.mk [1] [1]).waits.sum)) := by
  have h : wait_if_needed ⟨1, 1, 5⟩ [] 0 = some ⟨[1], [1]⟩ := by
    norm_num [wait_if_needed, prune, List.filter]
  exact ⟨h, rate_window_age_bounds ⟨1, 1, 5⟩ [] 0 ⟨[1], [1]⟩ h (by norm_num)⟩

/-- Claim C6: whenever `max_messages_per_minute ≥ 1`, `wait_if_needed` performs
exactly the algorithm the spec describes: prune entries that left the trailing
60-second window, sleep until the oldest surviving entry exits the window when
the pruned window is full, always additionally sleep `message_delay`, and
append the current time. -/
theorem wait_if_needed_follows_spec (cfg : RateLimitConfig) (times : List ℚ)
    (now : ℚ) (h : 1 ≤ cfg.max_messages_per_minute) :
    wait_if_needed cfg times now = acquire_slot_spec cfg times now := by
  have hf : prune times now = times.filter (fun t => decide (now - t < 60)) := by
    apply List.filter_congr
    intro t _
    refine decide_eq_decide.mpr ?_
    constructor <;> intro <;> linarith
  unfold wait_if_needed acquire_slot_spec
  rw [← hf]
  by_cases hfull : cfg.max_messages_per_minute ≤ (prune times now).length
  · rw [if_pos hfull, if_pos hfull]
    rcases hsc : prune times now with _ | ⟨t0, rest⟩
    · rfl
    · have ht0 : t0 ∈ prune times now := by
        rw [hsc]
        exact List.mem_cons_self t0 rest
      have ht0' : now - 60 < t0 := prune_mem_age ht0
      have hw : 0 < t0 - (now - 60) := by linarith
      dsimp only
      rw [if_pos hw]
      have h1 : t0 - (now - 60) = t0 + 60 - now := by ring
      rw [h1, add_assoc]
  · rw [if_neg hfull, if_neg hfull]

/-- Witness for `wait_if_needed_follows_spec` at a full window. -/
theorem wait_if_needed_follows_spec_witness :
    wait_if_needed ⟨1, 3 / 2, 1⟩ [70] 100 =
      acquire_slot_spec ⟨1, 3 / 2, 1⟩ [70] 100 ∧
    wait_if_needed ⟨1, 3 / 2, 1⟩ [70] 100 = some ⟨[30, 1], [70, 131]⟩ := by
  refine ⟨wait_if_needed_follows_spec ⟨1, 3 / 2, 1⟩ [70] 100 (by norm_num), ?_⟩
  norm_num [wait_if_needed, prune, List.filter]

/-- One dispatch attempt's outcome, as raised by the Telegram client:
success, `FloodWaitError` carrying the signalled wait in seconds,
`ChatWriteForbiddenError`, or any other exception. -/
inductive Outcome where
  | ok : Outcome
  | flood : ℚ → Outcome
  | forbidden : Outcome
  | err : Outcome
deriving DecidableEq

/-- Model of `MessageHandler.forward_message` (`handlers.py` lines 155–199)
over a trace of per-attempt outcomes (each attempt — resolve plus
forward/copy — consumes one trace element).  Success returns `(true, sleeps)`;
`ChatWriteForbiddenError` and any other exception return `(false, sleeps)`
without retry; `FloodWaitError e` calls
`rate_limiter.handle_flood_wait e` (sleeping `w * flood_wait_multiplier`) and
retries recursively.  An exhausted trace (`[]`, i.e. the provider floods
forever) is `none`: the recursion never returns.  The `stats` counter updates
are omitted. -/
def forward_message (cfg : RateLimitConfig) : List Outcome → Option (Bool × List ℚ)
  | [] => none
  | Outcome.ok :: _ => some (true, [])
  | Outcome.forbidden :: _ => some (false, [])
  | Outcome.err :: _ => some (false, [])
  | Outcome.flood w :: rest =>
    (forward_message cfg rest).map
      (fun r => (r.1, w * cfg.flood_wait_multiplier :: r.2))

/-- Model of `UserSubmissionBot.post_to_channel` (`bot.py` lines 289–325) over
the same kind of outcome trace.  It uses no `RateLimiter` at all (the class
has none): on `FloodWaitError e` it sleeps the raw `e.seconds` — no
`flood_wait_multiplier` — and retries recursively; `ChatWriteForbiddenError`
and any other exception return `false` without retry. -/
def post_to_channel : List Outcome → Option (Bool × List ℚ)
  | [] => none
  | Outcome.ok :: _ => some (true, [])
  | Outcome.forbidden :: _ => some (false, [])
  | Outcome.err :: _ => some (false, [])
  | Outcome.flood w :: rest =>
    (post_to_channel rest).map (fun r => (r.1, w :: r.2))

/-- Unfolding lemma: a rate-limit signal makes `forward_message` sleep
`w * flood_wait_multiplier` and retry on the rest of the trace. -/
theorem forward_message_flood (cfg : RateLimitConfig) (w : ℚ)
    (rest : List Outcome) :
    forward_message cfg (Outcome.flood w :: rest) =
      (forward_message cfg rest).map
        (fun r => (r.1, w * cfg.flood_wait_multiplier :: r.2)) := rfl

/-- Unfolding lemma: a rate-limit signal makes `post_to_channel` sleep the raw
`w` and retry on the rest of the trace. -/
theorem post_to_channel_flood (w : ℚ) (rest : List Outcome) :
    post_to_channel (Outcome.flood w :: rest) =
      (post_to_channel rest).map (fun r => (r.1, w :: r.2)) := rfl

/-- Claim C1 counterexample: with `flood_wait_multiplier = 3/2` and a trace of one
rate-limit signal of 10 seconds followed by success, `forward_message` sleeps
15 seconds before its retry while `post_to_channel` sleeps only the raw 10 —
the two publish operations are not the same rate-limited retrying dispatch,
and `post_to_channel` does not wait the signalled duration multiplied by
`flood_wait_multiplier`. -/
theorem publish_paths_differ :
    forward_message ⟨1, 3 / 2, 20⟩ [Outcome.flood 10, Outcome.ok] =
      some (true, [15]) ∧
    post_to_channel [Outcome.flood 10, Outcome.ok] = some (true, [10]) ∧
    ([(15 : ℚ)] ≠ [(10 : ℚ)]) := by
  refine ⟨?_, ?_, by norm_num⟩
  · norm_num [forward_message]
  · norm_num [post_to_channel]

/-- On a trace of `n` rate-limit signals followed by success,
`forward_message` sleeps `w * flood_wait_multiplier` before each of its `n`
retries while `post_to_channel` sleeps the raw `w` (shared helper). -/
theorem publish_replicate_flood (cfg : RateLimitConfig) (n : ℕ) (w : ℚ) :
    forward_message cfg (List.replicate n (Outcome.flood w) ++ [Outcome.ok]) =
      some (true, List.replicate n (w * cfg.flood_wait_multiplier)) ∧
    post_to_channel (List.replicate n (Outcome.flood w) ++ [Outcome.ok]) =
      some (true, List.replicate n w) := by
  induction n with
  | zero => exact ⟨rfl, rfl⟩
  | succ k ih =>
    refine ⟨?_, ?_⟩
    · rw [List.replicate_succ, List.cons_append, forward_message_flood, ih.1,
        List.replicate_succ]
      rfl
    · rw [List.replicate_succ, List.cons_append, post_to_channel_flood, ih.2,
        List.replicate_succ]
      rfl

/-- Claim C1 amended: both publish operations retry after a rate-limit signal, but
they are two separate implementations rather than one shared primitive:
on a trace of `n` rate-limit signals of `w` seconds followed by success,
`forward_message` sleeps `w * flood_wait_multiplier` before each of its `n`
retries (via `RateLimiter.handle_flood_wait`), while `post_to_channel` —
which involves no `RateLimiter` call at all — sleeps exactly the raw signalled
`w` before each retry. -/
theorem publish_retry_waits (cfg : RateLimitConfig) (n : ℕ) (w : ℚ) :
    forward_message cfg (List.replicate n (Outcome.flood w) ++ [Outcome.ok]) =
      some (true, List.replicate n (w * cfg.flood_wait_multiplier)) ∧
    post_to_channel (List.replicate n (Outcome.flood w) ++ [Outcome.ok]) =
      some (true, List.replicate n w) :=
  publish_replicate_flood cfg n w

/-- Claim C9: retry on a rate-limit signal is unbounded recursion in both publish
operations: a trace of `n` consecutive rate-limit signals followed by success
still succeeds after exactly `n` retries (one sleep per retry), for every `n`;
and under nothing but rate-limit signals neither operation ever terminates
the retry loop with a failure result (`none`: the recursion just keeps
consuming signals — no retry counter or cumulative wait ceiling exists). -/
theorem retry_is_unbounded (cfg : RateLimitConfig) (n : ℕ) (w : ℚ) :
    ((forward_message cfg
        (List.replicate n (Outcome.flood w) ++ [Outcome.ok])).map
      (fun r => (r.1, r.2.length)) = some (true, n)) ∧
    ((post_to_channel (List.replicate n (Outcome.flood w) ++ [Outcome.ok])).map
      (fun r => (r.1, r.2.length)) = some (true, n)) ∧
    forward_message cfg (List.replicate n (Outcome.flood w)) = none ∧
    post_to_channel (List.replicate n (Outcome.flood w)) = none := by
  refine ⟨?_, ?_, ?_, ?_⟩
  · rw [(publish_replicate_flood cfg n w).1]
    simp
  · rw [(publish_replicate_flood cfg n w).2]
    simp
  · induction n with
    | zero => rfl
    | succ k ih =>
      rw [List.replicate_succ, forward_message_flood, ih]
      rfl
  · induction n with
    | zero => rfl
    | succ k ih =>
      rw [List.replicate_succ, post_to_channel_flood, ih]
      rfl

/-- Case-folding used to model Python `str.lower()` — ASCII letters only
(`Char.toLower`); none of the claims here depend on non-ASCII case
folding. -/
def toLowerStr (s : String) : String :=
  ⟨s.data.map Char.toLower⟩

/-- Is `pat` a prefix of `l`?  (Building block for substring search.) -/
def listPrefixOf : List Char → List Char → Bool
  | [], _ => true
  | _ :: _, [] => false
  | a :: as, b :: bs => a == b && listPrefixOf as bs

/-- Does `pat` occur as a contiguous sublist of the second argument?  Models
Python's `in` operator on strings (the empty pattern occurs in anything). -/
def listSub (pat : List Char) : List Char → Bool
  | [] => pat.isEmpty
  | c :: t => listPrefixOf pat (c :: t) || listSub pat t

/-- Python `kw.lower() in text.lower()`: case-insensitive substring test. -/
def containsCI (text kw : String) : Bool :=
  listSub (toLowerStr kw).data (toLowerStr text).data

/-- Python `not text or not text.strip()`: the text is empty or whitespace
only. -/
def isBlank (s : String) : Bool :=
  s.data.all Char.isWhitespace

/-- Message filtering configuration, from `config.py` `FilterConfig`
(fields `include_keywords`, `exclude_keywords`, `include_media_only`,
`min_message_length`; the length is a Python `int`, hence `ℤ`). -/
structure FilterConfig where
  include_keywords : List String
  exclude_keywords : List String
  include_media_only : Bool
  min_message_length : ℤ
deriving DecidableEq

/-- The default `FilterConfig` from `config.py` lines 101–114: empty keyword
lists, `include_media_only = True`, `min_message_length = 0`. -/
def defaultFilterConfig : FilterConfig :=
  ⟨[], [], true, 0⟩

/-- The parts of a Telegram message that `MessageFilter.should_forward`
inspects: `text`, `caption` (each possibly absent) and whether media is
attached. -/
structure Message where
  text : Option String
  caption : Option String
  media : Bool
deriving DecidableEq

/-- Python `a or b`, where `None` and `""` are falsy. -/
def orStr (a : Option String) (b : String) : String :=
  match a with
  | none => b
  | some s => if s = "" then b else s

/-- Python `text = message.text or message.caption or ""` (`handlers.py` line 36). -/
def msgText (m : Message) : String :=
  orStr m.text (orStr m.caption "")

/-- Model of `MessageFilter.should_forward` (`handlers.py` lines 26–61):
empty text with media → `include_media_only`; text shorter than
`min_message_length` → reject; if `include_keywords` is non-empty, some
keyword must occur case-insensitively; if `exclude_keywords` is non-empty,
no keyword may occur; otherwise accept. -/
def should_forward (f : FilterConfig) (m : Message) : Bool :=
  let text := msgText m
  if text = "" && m.media then
    f.include_media_only
  else if (text.length : ℤ) < f.min_message_length then
    false
  else if !f.include_keywords.isEmpty &&
      !(f.include_keywords.any (fun kw => containsCI text kw)) then
    false
  else if !f.exclude_keywords.isEmpty &&
      f.exclude_keywords.any (fun kw => containsCI text kw) then
    false
  else
    true

/-- Claim C3 counterexample: under the repository's own default filter
configuration (`min_message_length = 0`, no keyword rules) a message with
empty text and no media is *accepted* by `should_forward`, not rejected. -/
theorem empty_message_accepted_by_default :
    msgText ⟨none, none, false⟩ = "" ∧ (Message.mk none none false).media = false ∧
    should_forward defaultFilterConfig ⟨none, none, false⟩ = true := by
  refine ⟨rfl, rfl, ?_⟩
  rfl

/-- Claim C3 amended: a message with empty text and no media is rejected by
`should_forward` whenever `min_message_length` is positive, or
`include_keywords` is non-empty and contains no keyword that lowercases to
the empty string; with `min_message_length ≤ 0` and no keyword rules the
empty, media-less message is instead accepted. -/
theorem empty_no_media_rejected (f : FilterConfig) (m : Message)
    (htext : msgText m = "") (hmedia : m.media = false)
    (hrule : 0 < f.min_message_length ∨
      (f.include_keywords ≠ [] ∧
        ∀ kw ∈ f.include_keywords, toLowerStr kw ≠ "")) :
    should_forward f m = false := by
  unfold should_forward
  rw [htext, hmedia]
  simp only [Bool.and_false, Bool.false_eq_true, if_false, String.length]
  rcases hrule with hmin | ⟨hne, hkw⟩
  · rw [if_pos]
    simpa using hmin
  · by_cases hmin : ((0 : ℤ) < f.min_message_length)
    · rw [if_pos]
      simpa using hmin
    · rw [if_neg (by simpa using hmin), if_pos]
      rw [Bool.and_eq_true, Bool.not_eq_true', Bool.not_eq_true']
      constructor
      · cases hl : f.include_keywords with
        | nil => exact absurd hl hne
        | cons a l => rfl
      · rw [← Bool.not_eq_true, List.any_eq_true]
        rintro ⟨kw, hmem, hc⟩
        apply hkw kw hmem
        have : listSub (toLowerStr kw).data [] = true := hc
        rcases hd : (toLowerStr kw).data with _ | ⟨c, cs⟩
        · exact String.ext hd
        · rw [hd] at this
          exact absurd this (by simp [listSub, List.isEmpty])

/-- Witness for `empty_no_media_rejected`: an empty, media-less message is
rejected once `min_message_length = 1`. -/
theorem empty_no_media_rejected_witness :
    msgText ⟨none, none, false⟩ = "" ∧
    should_forward ⟨[], [], true, 1⟩ ⟨none, none, false⟩ = false :=
  ⟨rfl, empty_no_media_rejected ⟨[], [], true, 1⟩ ⟨none, none, false⟩ rfl rfl
    (Or.inl (by norm_num))⟩

/-- Source constant `SubmissionScreener.DEFAULT_REQUIRED_KEYWORDS` (`bot.py` lines 30–35). -/
def DEFAULT_REQUIRED_KEYWORDS : List String :=
  ["apartment", "flat", "rent", "renting", "rental",
   "room", "studio", "bedroom", "sublet", "lease",
   "housing", "accommodation", "vuokra", "asunto",
   "1bdrm", "2bdrm", "3bdrm", "квартира", "комната", "аренда"]

/-- Source constant `SubmissionScreener.DEFAULT_BLOCKED_PATTERNS` (`bot.py` lines 38–42).
Every pattern in the source is a literal regex (the only metacharacter used
is the escaped dot `\.`), compiled with `re.IGNORECASE` and applied with
`.search`, i.e. each is exactly a case-insensitive substring test; the list
holds the literal text each pattern matches. -/
def DEFAULT_BLOCKED_PATTERNS : List String :=
  ["bit.ly", "tinyurl", "click here",
   "earn money", "make money fast", "crypto",
   "investment opportunity", "guaranteed returns"]

/-- Source attribute `self.required_keywords` (`bot.py` lines 49–53): the configured
`include_keywords` when non-empty, else the built-in defaults. -/
def required_keywords (f : FilterConfig) : List String :=
  if f.include_keywords.isEmpty then DEFAULT_REQUIRED_KEYWORDS
  else f.include_keywords

/-- Python `min_length = self.filters.min_message_length or 20` (`bot.py` line 96):
Python `or` replaces the falsy `0` by `20` (a negative configured value is
truthy and kept). -/
def effective_min_length (f : FilterConfig) : ℤ :=
  if f.min_message_length = 0 then 20 else f.min_message_length

/-- The `reason` field of `SubmissionScreener.screen_message`'s result
(`approved` is `true` exactly on `Reason.approved`). -/
inductive Reason where
  | empty_message : Reason
  | spam_detected : Reason
  | blocked_keyword : Reason
  | too_short : Reason
  | off_topic : Reason
  | approved : Reason
deriving DecidableEq

/-- Model of `SubmissionScreener.screen_message` (`bot.py` lines 58–124),
with `self.blocked_keywords = filters.exclude_keywords` (line 55).  Check
order as in the source: empty/whitespace text, then blocked patterns, then
blocked keywords, then minimum length, then required-topic keywords, else
approved. -/
def screen_message (f : FilterConfig) (text : String) : Reason :=
  if isBlank text then Reason.empty_message
  else if DEFAULT_BLOCKED_PATTERNS.any (fun p => containsCI text p) then
    Reason.spam_detected
  else if f.exclude_keywords.any (fun kw => containsCI text kw) then
    Reason.blocked_keyword
  else if (text.length : ℤ) < effective_min_length f then
    Reason.too_short
  else if !(required_keywords f).any (fun kw => containsCI text kw) then
    Reason.off_topic
  else
    Reason.approved

/-- Claim C4 counterexample: the non-empty text `"bit.ly"` has length 6, below the
effective minimum of 20, yet `screen_message` reports `spam_detected`, not
`too_short` — blocked patterns are checked before the length rule. -/
theorem short_spam_reported_as_spam :
    isBlank "bit.ly" = false ∧
    (("bit.ly".length : ℤ) < effective_min_length defaultFilterConfig) ∧
    screen_message defaultFilterConfig "bit.ly" = Reason.spam_detected ∧
    Reason.spam_detected ≠ Reason.too_short := by
  refine ⟨by decide, by decide, by decide, by decide⟩

/-- Claim C4 amended: for every non-empty (non-whitespace-only) text below the
effective minimum length that matches no blocked pattern and contains no
blocked keyword, `screen_message` reports `too_short` even when the text also
lacks the required-topic keywords: length is checked before the
required-topic rule, but after the spam-pattern and blocked-keyword rules. -/
theorem too_short_before_topic (f : FilterConfig) (text : String)
    (hb : isBlank text = false)
    (hsp : DEFAULT_BLOCKED_PATTERNS.any (fun p => containsCI text p) = false)
    (hbk : f.exclude_keywords.any (fun kw => containsCI text kw) = false)
    (hlen : (text.length : ℤ) < effective_min_length f) :
    screen_message f text = Reason.too_short := by
  unfold screen_message
  rw [hb, hsp, hbk]
  simp only [Bool.false_eq_true, if_false]
  rw [if_pos hlen]

/-- Witness for `too_short_before_topic`: the two-character off-topic text
`"xy"` is reported `too_short`, not `off_topic`. -/
theorem too_short_before_topic_witness :
    isBlank "xy" = false ∧
    (("xy".length : ℤ) < effective_min_length defaultFilterConfig) ∧
    screen_message defaultFilterConfig "xy" = Reason.too_short :=
  ⟨by decide, by decide,
    too_short_before_topic defaultFilterConfig "xy" (by decide) (by decide)
      (by decide) (by decide)⟩

/-- Association-list lookup, modelling Python dict membership/read
(`channel_id in self._channel_cache` / `self._channel_cache[channel_id]`). -/
def lookupA {α β : Type} [DecidableEq α] : List (α × β) → α → Option β
  | [], _ => none
  | (k, v) :: rest, key => if k = key then some v else lookupA rest key

/-- Association-list write, modelling Python dict assignment
(`self._channel_cache[key] = entity`): overwrite an existing key, else
append. -/
def insertA {α β : Type} [DecidableEq α] :
    List (α × β) → α → β → List (α × β)
  | [], key, v => [(key, v)]
  | (k, w) :: rest, key, v =>
    if k = key then (key, v) :: rest else (k, w) :: insertA rest key v

/-- One replacement pass of Python `str.replace(old, "")` on character lists
(remove every non-overlapping occurrence of `pat`, scanning left to right),
with explicit fuel for structural recursion; fuel ≥ list length computes the
full result when `pat` is non-empty. -/
def removeAllFuel (pat : List Char) : ℕ → List Char → List Char
  | _, [] => []
  | 0, l => l
  | n + 1, c :: rest =>
    if pat ≠ [] && listPrefixOf pat (c :: rest) then
      removeAllFuel pat n ((c :: rest).drop pat.length)
    else
      c :: removeAllFuel pat n rest

/-- Python `s.replace(pat, "")`. -/
def removeAll (pat : List Char) (l : List Char) : List Char :=
  removeAllFuel pat l.length l

/-- The link prefix stripped by `resolve_channel` (`handlers.py` line 140). -/
def tmeLink : String := "https://t.me/"

/-- The identifier normalisation inside `resolve_channel` (`handlers.py`
lines 140–145): when the identifier starts with `https://t.me/` that prefix is
removed via `str.replace` (which removes every occurrence); the `+` invite
branch is a no-op in the source (`channel_id = channel_id`). -/
def normalize_channel_id (s : String) : String :=
  if listPrefixOf tmeLink.data s.data then ⟨removeAll tmeLink.data s.data⟩
  else s

/-- Model of `MessageHandler.resolve_channel` (`handlers.py` lines 125–153).
`cache` is `self._channel_cache` (entities are opaque `ℕ`), `get_entity` is
the external lookup (`none` = it raises).  Returns the resolved entity (or
`none` when the error propagates), the new cache, and how many external
lookups were performed (0 on a cache hit, 1 otherwise).  Note the cache is
probed with the *original* identifier but written with the *normalised* one. -/
def resolve_channel (cache : List (String × ℕ)) (get_entity : String → Option ℕ)
    (channel_id : String) : Option ℕ × List (String × ℕ) × ℕ :=
  match lookupA cache channel_id with
  | some e => (some e, cache, 0)
  | none =>
    match get_entity (normalize_channel_id channel_id) with
    | some e => (some e, insertA cache (normalize_channel_id channel_id) e, 1)
    | none => (none, cache, 1)

/-- Looking up a key right after writing it finds the written value. -/
theorem lookupA_insertA {α β : Type} [DecidableEq α] (c : List (α × β))
    (k : α) (v : β) : lookupA (insertA c k v) k = some v := by
  induction c with
  | nil => simp [insertA, lookupA]
  | cons p rest ih =>
    obtain ⟨a, b⟩ := p
    by_cases hk : a = k
    · subst hk
      simp [insertA, lookupA]
    · unfold insertA
      rw [if_neg hk]
      unfold lookupA
      rw [if_neg hk]
      exact ih

/-- Claim C2 counterexample: resolving the link identifier `"https://t.me/foo"`
stores the entity under the *stripped* key `"foo"`, so a second call with the
same original identifier misses the cache and performs a second external
lookup instead of returning the cached reference with none. -/
theorem link_identifier_not_cached_under_original :
    resolve_channel [] (fun _ => some 7) "https://t.me/foo" =
      (some 7, [("foo", 7)], 1) ∧
    resolve_channel [("foo", 7)] (fun _ => some 7) "https://t.me/foo" =
      (some 7, [("foo", 7)], 1) := by
  constructor
  · decide
  · decide

/-- Claim C2 amended: a successful resolve stores the result keyed by the
*normalised* identifier, not the original one.  For identifiers that do not
start with `https://t.me/` the two coincide, and there the claim holds: a
second call with the same identifier string returns the cached entity and
performs no external lookup.  For link identifiers the stored key is the
stripped form, so repeated calls with the original link string keep hitting
the external lookup (see the counterexample). -/
theorem resolve_caches_under_normalized (cache : List (String × ℕ))
    (get_entity : String → Option ℕ) (s : String) (e : ℕ)
    (hnp : listPrefixOf tmeLink.data s.data = false)
    (hmiss : lookupA cache s = none) (hget : get_entity s = some e) :
    resolve_channel cache get_entity s = (some e, insertA cache s e, 1) ∧
    resolve_channel (insertA cache s e) get_entity s =
      (some e, insertA cache s e, 1 - 1) := by
  have hnorm : normalize_channel_id s = s := by
    unfold normalize_channel_id
    rw [hnp]
    simp
  have hfirst : resolve_channel cache get_entity s =
      (some e, insertA cache s e, 1) := by
    unfold resolve_channel
    rw [hmiss, hnorm, hget]
  refine ⟨hfirst, ?_⟩
  unfold resolve_channel
  rw [lookupA_insertA]

/-- Witness for `resolve_caches_under_normalized` at the plain handle
`"chan"`. -/
theorem resolve_caches_under_normalized_witness :
    resolve_channel [] (fun _ => some 7) "chan" = (some 7, [("chan", 7)], 1) ∧
    resolve_channel [("chan", 7)] (fun _ => some 7) "chan" =
      (some 7, [("chan", 7)], 0) :=
  resolve_caches_under_normalized [] (fun _ => some 7) "chan" 7 (by decide)
    (by decide) (by decide)

/-- Claim C10: when the external lookup raises, `resolve_channel` propagates the
error, performs exactly one external lookup, and leaves the cache unchanged;
since failures are never cached, an identical later call (same unchanged
cache) performs the external lookup again. -/
theorem resolve_failure_not_cached (cache : List (String × ℕ))
    (get_entity : String → Option ℕ) (s : String)
    (hmiss : lookupA cache s = none)
    (hget : get_entity (normalize_channel_id s) = none) :
    resolve_channel cache get_entity s = (none, cache, 1) ∧
    resolve_channel (resolve_channel cache get_entity s).2.1 get_entity s =
      (none, cache, 1) := by
  have h1 : resolve_channel cache get_entity s = (none, cache, 1) := by
    unfold resolve_channel
    rw [hmiss, hget]
  rw [h1]
  exact ⟨rfl, h1⟩

/-- Witness for `resolve_failure_not_cached`: a failing lookup for `"nope"`
leaves the cache `[("x", 3)]` unchanged and is retried on the later call. -/
theorem resolve_failure_not_cached_witness :
    resolve_channel [("x", 3)] (fun _ => none) "nope" = (none, [("x", 3)], 1) ∧
    resolve_channel
        (resolve_channel [("x", 3)] (fun _ => none) "nope").2.1
        (fun _ => none) "nope" = (none, [("x", 3)], 1) :=
  resolve_failure_not_cached [("x", 3)] (fun _ => none) "nope" (by decide)
    (by decide)

/-- Association-list key removal, modelling Python `dict.pop(key)` /
`dict.pop(key, None)` (keys are unique, so removing the first match
suffices). -/
def eraseA {α β : Type} [DecidableEq α] : List (α × β) → α → List (α × β)
  | [], _ => []
  | (k, v) :: rest, key =>
    if k = key then rest else (k, v) :: eraseA rest key

/-- Mutable state of `UserSubmissionBot`: `pending_submissions`
(user id → message text, a Python dict keyed by `int`) and the three
statistics counters (`bot.py` lines 141–148). -/
structure BotState where
  pending : List (ℤ × String)
  submissions_received : ℕ
  submissions_approved : ℕ
  submissions_rejected : ℕ
deriving DecidableEq

/-- Observable side effects of `handle_button_callback`, in order:
`event.answer(text)` (with `ack` for the bare `event.answer()` at the end),
`event.edit(text)`, and `dispatch` for the `send_message` performed inside
`post_to_channel` (present whether or not the send ultimately succeeds). -/
inductive BotEffect where
  | answer : String → BotEffect
  | ack : BotEffect
  | edit : String → BotEffect
  | dispatch : String → BotEffect
deriving DecidableEq

/-- The attribution wrapper built in `post_to_channel` (`bot.py`
lines 305–310). -/
def formatted_message (text : String) : String :=
  "🏠 **New Listing**\n\n" ++ text ++
    "\n\n━━━━━━━━━━━━━━━\n📮 _Submitted via bot_"

/-- The notice sent when confirm is pressed with no pending submission
(`bot.py` line 259). -/
def noPendingNotice : String :=
  "No pending submission found. Please send a new message."

/-- Model of `UserSubmissionBot.handle_button_callback` (`bot.py`
lines 252–287) as a state transition with an effect trace.  The dispatch
outcomes of `post_to_channel` come from the trace `outs`; `none` models the
callback never returning because `post_to_channel` retries forever.  On
`confirm_post` with no pending entry the handler answers the notice and
returns early (skipping even the final bare `event.answer()`); with a pending
entry it pops it, runs `post_to_channel`, edits the success or failure
message, and increments `submissions_approved` only on success. -/
def handle_button_callback (st : BotState) (user : ℤ) (data : String)
    (outs : List Outcome) : Option (BotState × List BotEffect) :=
  if data = "confirm_post" then
    match lookupA st.pending user with
    | none => some (st, [BotEffect.answer noPendingNotice])
    | some text =>
      match post_to_channel outs with
      | none => none
      | some (true, _) =>
        some ({ st with
            pending := eraseA st.pending user,
            submissions_approved := st.submissions_approved + 1 },
          [BotEffect.dispatch (formatted_message text),
            BotEffect.edit "✅ **Your listing has been posted to the channel!**\n\nThank you for your submission. 🏠",
            BotEffect.ack])
      | some (false, _) =>
        some ({ st with pending := eraseA st.pending user },
          [BotEffect.dispatch (formatted_message text),
            BotEffect.edit "❌ **Failed to post to the channel.**\n\nPlease try again later or contact an admin.",
            BotEffect.ack])
  else if data = "cancel_post" then
    some ({ st with pending := eraseA st.pending user },
      [BotEffect.edit "❌ Submission cancelled. Send a new message anytime!",
        BotEffect.ack])
  else if data = "edit_post" then
    some ({ st with pending := eraseA st.pending user },
      [BotEffect.edit "✏️ Please send your edited listing message.",
        BotEffect.ack])
  else
    some (st, [BotEffect.ack])

/-- Claim C8: pressing confirm with no pending submission for that user yields
exactly the "nothing pending" notice and has no side effects: the returned
state is the input state unchanged (same `pending_submissions`, same
counters, in particular `submissions_approved`), the effect trace contains no
`dispatch`, and the result does not depend on the provider trace `outs` — no
dispatch attempt is even started. -/
theorem confirm_without_pending_is_noop (st : BotState) (user : ℤ)
    (outs : List Outcome) (h : lookupA st.pending user = none) :
    handle_button_callback st user "confirm_post" outs =
      some (st, [BotEffect.answer noPendingNotice]) := by
  unfold handle_button_callback
  rw [if_pos rfl, h]

/-- Witness for `confirm_without_pending_is_noop`: user 42, empty pending
map, counters (3, 1, 2) all preserved, no dispatch effect. -/
theorem confirm_without_pending_is_noop_witness :
    handle_button_callback ⟨[], 3, 1, 2⟩ 42 "confirm_post"
        [Outcome.ok] =
      some (⟨[], 3, 1, 2⟩, [BotEffect.answer noPendingNotice]) :=
  confirm_without_pending_is_noop ⟨[], 3, 1, 2⟩ 42 [Outcome.ok] (by decide)
